import Mathlib

/-!
Shallow embedding of the shipyardapp/amazonredshift-blueprints repository
(`upload_file.py` and `store_query_results.py`) and proofs about its
chunked CSV import/export pipelines, type-mapping heuristic, path
combiner, argument validation and connection-descriptor construction.

Pure Python functions become Lean functions; the side-effecting parts of
`upload_data` and `main` are embedded as the trace of SQL-level actions
they execute, and file writes as functions from file content to file
content.
-/

namespace RedshiftBlueprints

/-! ## Type-mapping heuristic (`upload_file.map_datatypes`) -/

/-- Embedding of `upload_file.map_datatypes`: maps a pandas dtype tag to a
SQL type literal via a chain of string comparisons with a `VARCHAR(255)`
fallback. -/
def map_datatypes (pandas_type : String) : String :=
  if pandas_type = "object" then "VARCHAR(255)"
  else if pandas_type = "int64" then "INT"
  else if pandas_type = "float64" then "FLOAT"
  else if pandas_type = "bool" then "BOOLEAN"
  else if pandas_type = "datetime64" then "DATETIME"
  else if pandas_type = "timedelta[ns]" then "INTERVAL"
  else if pandas_type = "category" then "VARCHAR(255)"
  else "VARCHAR(255)"

/-! ## Path normalization (`os.path.normpath`, POSIX) and the path combiner -/

/-- Split a character list on a separator character, keeping empty
components, as Python's `str.split` does for a one-character separator. -/
def splitChars (sep : Char) : List Char → List (List Char)
  | [] => [[]]
  | c :: rest =>
    let r := splitChars sep rest
    if c = sep then [] :: r
    else
      match r with
      | [] => [[c]]
      | g :: gs => (c :: g) :: gs

/-- Number of leading separator characters of a character list. -/
def leadingSlashes : List Char → Nat
  | [] => 0
  | c :: rest => if c = '/' then leadingSlashes rest + 1 else 0

/-- The `initial_slashes` computation of `posixpath.normpath`: 0 when the
path is relative, 2 when it starts with exactly two slashes, 1 otherwise. -/
def initialSlashCount (s : List Char) : Nat :=
  let k := leadingSlashes s
  if k = 0 then 0 else if k = 2 then 2 else 1

/-- The component-filtering loop of `posixpath.normpath`: drops empty and
`.` components, resolves `..` against the accumulated components. The
accumulator is kept reversed. -/
def normpathLoop (hasRoot : Bool) : List String → List String → List String
  | acc, [] => acc.reverse
  | acc, comp :: rest =>
    if comp = "" ∨ comp = "." then normpathLoop hasRoot acc rest
    else if comp ≠ ".." ∨ (hasRoot = false ∧ acc = []) ∨ acc.head? = some ".." then
      normpathLoop hasRoot (comp :: acc) rest
    else
      match acc with
      | [] => normpathLoop hasRoot [] rest
      | _ :: accTail => normpathLoop hasRoot accTail rest

/-- Join path components with single separators, as `'/'.join(comps)`. -/
def joinSep : List String → String
  | [] => ""
  | [x] => x
  | x :: y :: rest => x ++ "/" ++ joinSep (y :: rest)

/-- Embedding of `posixpath.normpath`, the normalization used by
`os.path.normpath` on the POSIX platforms the blueprints run on. -/
def normpath (p : String) : String :=
  if p = "" then "."
  else
    let k := initialSlashCount p.data
    let comps := (splitChars '/' p.data).map String.mk
    let newComps := normpathLoop (k != 0) [] comps
    let joined := joinSep newComps
    let out := (if k = 2 then "//" else if k = 0 then "" else "/") ++ joined
    if out = "" then "." else out

/-- Embedding of `combine_folder_and_file_name` (identical in both
scripts): `os.path.normpath(f'{folder_name}{"/" if folder_name else ""}{file_name}')`. -/
def combine_folder_and_file_name (folder_name file_name : String) : String :=
  normpath (folder_name ++ (if folder_name = "" then "" else "/") ++ file_name)

/-! ## Import pipeline (`upload_file.py`) -/

/-- A pandas chunk as produced by `pd.read_csv(..., chunksize=10000)`:
column names paired with their dtype tags, and the row data. -/
structure Chunk where
  cols : List (String × String)
  rows : List (List String)
deriving DecidableEq, Repr

/-- The `--insert-method` choices: pandas `to_sql` conflict policies. -/
inductive InsertMethod
  | fail
  | replace
  | append
deriving DecidableEq, Repr

/-- One observable database action of `upload_data`: either a raw SQL
statement run through `conn.execute`, or a `DataFrame.to_sql` call with
its table, schema argument (the source never passes one, so it is `none`,
meaning the connection's default schema), conflict policy and rows. -/
inductive Action where
  | execSQL (stmt : String)
  | toSql (table : String) (schema : Option String) (ifExists : InsertMethod) (rows : List (List String))
deriving DecidableEq, Repr

/-- Embedding of `upload_file.create_table_query`: renders
`CREATE TABLE IF NOT EXISTS {database}.{schema}.{table_name} (...)` with
one ` "{col}" {map_datatypes(dtype)}` item per column. The Python
parameter `schema` defaults to `'public'`; `upload_data` always passes it
explicitly. -/
def create_table_query (table_name : String) (df : Chunk) (database : String) (schema : String) : String :=
  let columns := String.intercalate ",\n" (df.cols.map (fun c => " \"" ++ c.1 ++ "\" " ++ map_datatypes c.2))
  "CREATE TABLE IF NOT EXISTS " ++ database ++ "." ++ schema ++ "." ++ table_name ++ " (\n" ++ columns ++ "\n);"

/-- The chunk loop of `upload_data` in the no-schema branch: `insert_method`
is a mutable local that is demoted to `append` when it equals `replace`
and the chunk index is positive, then each chunk is written with
`to_sql(table_name, ..., if_exists=insert_method)`. -/
def uploadChunksNoSchema (table_name : String) : InsertMethod → Nat → List Chunk → List Action
  | _, _, [] => []
  | m, index, chunk :: rest =>
    let m' := if m = InsertMethod.replace ∧ index > 0 then InsertMethod.append else m
    Action.toSql table_name none m' chunk.rows :: uploadChunksNoSchema table_name m' (index + 1) rest

/-- The chunk loop of `upload_data` in the schema branch: identical to the
no-schema loop except that at chunk index 0 it first executes
`create_table_query(table_name, chunk, database, schema=schema)`. -/
def uploadChunksSchema (table_name database schema : String) : InsertMethod → Nat → List Chunk → List Action
  | _, _, [] => []
  | m, index, chunk :: rest =>
    let createActs : List Action :=
      if index = 0 then [Action.execSQL (create_table_query table_name chunk database schema)] else []
    let m' := if m = InsertMethod.replace ∧ index > 0 then InsertMethod.append else m
    createActs ++ Action.toSql table_name none m' chunk.rows :: uploadChunksSchema table_name database schema m' (index + 1) rest

/-- Embedding of `upload_file.upload_data` as the list of database actions
it executes, with the CSV file abstracted as its list of chunks. In the
schema branch the source builds
`drop_query = f"DROP TABLE public.{table_name}"` but never passes it to
`conn.execute`, so no drop action appears in the trace. -/
def upload_data (chunks : List Chunk) (table_name : String) (insert_method : InsertMethod)
    (database : String) (schema : Option String) : List Action :=
  match schema with
  | some s =>
    Action.execSQL ("CREATE SCHEMA IF NOT EXISTS " ++ s)
      :: uploadChunksSchema table_name database s insert_method 0 chunks
      ++ [Action.execSQL ("INSERT INTO " ++ s ++ "." ++ table_name ++ " (SELECT * FROM " ++ table_name ++ ")")]
  | none => uploadChunksNoSchema table_name insert_method 0 chunks

/-- The regex-match branch of `upload_file.main`: one `upload_data` call
per matched file, each passed the unchanged `insert_method` from `main`'s
scope (the demotion inside `upload_data` rebinds only its local). Files
are abstracted as their chunk lists. -/
def main_regex_uploads (files : List (List Chunk)) (table_name : String)
    (insert_method : InsertMethod) (database : String) (schema : Option String) : List Action :=
  (files.map (fun chunks => upload_data chunks table_name insert_method database schema)).flatten

/-! ## Semantics of the actions on the default-schema destination table -/

/-- State of the destination table in the connection's default schema:
`none` when the table does not exist, otherwise its rows. -/
abbrev TableState := Option (List (List String))

/-- Semantics of `DataFrame.to_sql`'s `if_exists` policies: `fail` errors
when the table exists, `replace` drops and recreates it with the chunk's
rows, `append` inserts after any existing rows. `none` is the error
outcome. -/
def applyToSql : InsertMethod → List (List String) → TableState → Option TableState
  | InsertMethod.fail, _, some _ => none
  | InsertMethod.fail, rows, none => some (some rows)
  | InsertMethod.replace, rows, _ => some (some rows)
  | InsertMethod.append, rows, none => some (some rows)
  | InsertMethod.append, rows, some existing => some (some (existing ++ rows))

/-- Run a trace of actions against the default-schema destination table.
`execSQL` statements in the traces at hand address the requested (non
default) schema and do not touch this table. -/
def runActions : List Action → TableState → Option TableState
  | [], st => some st
  | Action.execSQL _ :: rest, st => runActions rest st
  | Action.toSql _ _ m rows :: rest, st =>
    match applyToSql m rows st with
    | none => none
    | some st' => runActions rest st'

/-- All rows of a file, chunk order preserved. -/
def allRows (chunks : List Chunk) : List (List String) :=
  (chunks.map Chunk.rows).flatten

/-- Conflict policies of the `to_sql` actions of a trace, in order. -/
def toSqlMethods : List Action → List InsertMethod
  | [] => []
  | Action.execSQL _ :: rest => toSqlMethods rest
  | Action.toSql _ _ m _ :: rest => m :: toSqlMethods rest

/-! ## Export pipeline (`store_query_results.py`) -/

/-- Embedding of `store_query_results.convert_to_boolean`: exactly the
strings `'True'`, `'true'`, `'TRUE'` convert to `true`. -/
def convert_to_boolean (string : String) : Bool :=
  if string ∈ ["True", "true", "TRUE"] then true else false

/-- Render one CSV row as pandas `to_csv` does for plain string cells:
comma-joined and newline-terminated. -/
def renderRow (r : List String) : String :=
  String.intercalate "," r ++ "\n"

/-- Render a list of CSV rows, in order. -/
def renderRows : List (List String) → String
  | [] => ""
  | r :: rest => renderRow r ++ renderRows rest

/-- The chunk loop of `store_query_results.create_csv`: the counter `i`
starts at 1; every chunk is written with `mode='a'` (append), the first
chunk with `header=file_header`, later chunks with `header=False`. The
file is modelled by its content, all chunks share the column-name list
`header`. -/
def createCsvLoop (header : List String) (file_header : Bool) : Nat → List (List (List String)) → String → String
  | _, [], content => content
  | i, chunk :: rest, content =>
    let content' :=
      if i = 1 then content ++ (if file_header then renderRow header else "") ++ renderRows chunk
      else content ++ renderRows chunk
    createCsvLoop header file_header (i + 1) rest content'

/-- Embedding of `store_query_results.create_csv`: folds the query's
chunks into the destination file's content starting from whatever the
file held before. -/
def create_csv (header : List String) (chunks : List (List (List String)))
    (destContent : String) (file_header : Bool) : String :=
  createCsvLoop header file_header 1 chunks destContent

/-- Default of `create_csv`'s Python parameter `file_header`. -/
def create_csv_default_file_header : Bool := true

/-- The `create_csv` call in `store_query_results.main`: `main` computes
`file_header = convert_to_boolean(args.file_header)` but calls
`create_csv(query=..., db_connection=..., destination_full_path=...)`
without a `file_header` argument, so the parameter takes its default. -/
def store_main_export (file_header_arg : String) (header : List String)
    (chunks : List (List (List String))) (destContent : String) : String :=
  let file_header := convert_to_boolean file_header_arg
  let _ := file_header
  create_csv header chunks destContent create_csv_default_file_header

/-! ## Argument validation (`get_args`, identical logic in both scripts) -/

/-- Truthiness of the connection-related CLI arguments and of the
`DB_CONNECTION_URL` environment variable (a Python string is truthy iff
non-empty, an absent argument is `None`, falsy). -/
structure ConnArgs where
  db_connection_url : Bool
  host : Bool
  database : Bool
  username : Bool
  env_db_connection_url : Bool
deriving DecidableEq, Repr

/-- Embedding of the validation block shared by `get_args` in
`upload_file.py` and `store_query_results.py`: `true` means the arguments
pass, `false` means `parser.error` is called (a usage error before any
connection attempt). -/
def validate_connection_args (a : ConnArgs) : Bool :=
  if ¬ a.db_connection_url ∧ ¬ (a.host ∨ a.database ∨ a.username) ∧ ¬ a.env_db_connection_url then false
  else if a.host ∧ ¬ (a.database ∨ a.username) then false
  else if a.database ∧ ¬ (a.host ∨ a.username) then false
  else if a.username ∧ ¬ (a.host ∨ a.username) then false
  else true

/-! ## Connection descriptor (`create_connection_url`, both scripts) -/

/-- The `sqlalchemy.engine.url.URL.create` result as built by
`create_connection_url`. -/
structure ConnectionURL where
  drivername : String
  host : String
  password : String
  username : String
  port : Nat
  database : String
deriving DecidableEq, Repr

/-- Default of `create_connection_url`'s Python parameter `port`. -/
def create_connection_url_default_port : Nat := 5439

/-- Embedding of `create_connection_url` (same in both scripts): builds
the URL descriptor with drivername `redshift+redshift_connector`. -/
def create_connection_url (host password user database : String) (port : Nat) : ConnectionURL :=
  { drivername := "redshift+redshift_connector", host := host, password := password,
    username := user, port := port, database := database }

/-- The descriptor built in `upload_file.main`: it reads `args.port` into
a local but calls `create_connection_url(host=host, password=password,
user=user, database=database)` without a `port` argument, so the default
port is used. -/
def upload_main_connection_url (host password user database port_arg : String) : ConnectionURL :=
  let port := port_arg
  let _ := port
  create_connection_url host password user database create_connection_url_default_port

/-! ## Helper lemmas -/

/-- After the first chunk, both upload loops write every remaining chunk
with the once-demoted method: `replace` has become `append`, `fail` and
`append` are unchanged. -/
theorem uploadChunksNoSchema_pos (t : String) (chunks : List Chunk) :
    ∀ (m : InsertMethod) (i : Nat),
      uploadChunksNoSchema t m (i + 1) chunks =
        chunks.map (fun c =>
          Action.toSql t none (if m = InsertMethod.replace then InsertMethod.append else m) c.rows) := by
  induction chunks with
  | nil => intro m i; rfl
  | cons c cs ih =>
    intro m i
    have hcond : (m = InsertMethod.replace ∧ i + 1 > 0) = (m = InsertMethod.replace) := by
      simp
    rw [uploadChunksNoSchema]
    simp only [hcond]
    cases m with
    | fail => simpa using ih InsertMethod.fail (i + 1)
    | replace => simpa using ih InsertMethod.append (i + 1)
    | append => simpa using ih InsertMethod.append (i + 1)

/-- Same fact for the schema-branch loop: past index 0 no create-table
action is emitted and the methods follow the same demotion. -/
theorem uploadChunksSchema_pos (t db s : String) (chunks : List Chunk) :
    ∀ (m : InsertMethod) (i : Nat),
      uploadChunksSchema t db s m (i + 1) chunks =
        chunks.map (fun c =>
          Action.toSql t none (if m = InsertMethod.replace then InsertMethod.append else m) c.rows) := by
  induction chunks with
  | nil => intro m i; rfl
  | cons c cs ih =>
    intro m i
    rw [uploadChunksSchema]
    simp only [Nat.succ_ne_zero, if_false]
    have hcond : (m = InsertMethod.replace ∧ i + 1 > 0) = (m = InsertMethod.replace) := by
      simp
    simp only [hcond]
    cases m with
    | fail => simpa using ih InsertMethod.fail (i + 1)
    | replace => simpa using ih InsertMethod.append (i + 1)
    | append => simpa using ih InsertMethod.append (i + 1)

/-- `toSqlMethods` distributes over trace concatenation. -/
theorem toSqlMethods_append (a b : List Action) :
    toSqlMethods (a ++ b) = toSqlMethods a ++ toSqlMethods b := by
  induction a with
  | nil => rfl
  | cons x xs ih =>
    cases x with
    | execSQL stmt => simpa [toSqlMethods] using ih
    | toSql tb sch m rows => simpa [toSqlMethods] using ih

/-- `toSqlMethods` of a homogeneous block of `to_sql` actions. -/
theorem toSqlMethods_map (t : String) (mm : InsertMethod) (chunks : List Chunk) :
    toSqlMethods (chunks.map (fun c => Action.toSql t none mm c.rows)) =
      List.replicate chunks.length mm := by
  induction chunks with
  | nil => rfl
  | cons c cs ih => simpa [toSqlMethods, List.replicate] using ih

/-- The sequence of conflict policies `upload_data` passes to `to_sql`:
the caller's method for chunk 0, then the demoted method for every later
chunk, in both the schema and no-schema branches. -/
theorem upload_data_methods (t db : String) (m : InsertMethod) (sch : Option String)
    (c : Chunk) (cs : List Chunk) :
    toSqlMethods (upload_data (c :: cs) t m db sch) =
      m :: List.replicate cs.length (if m = InsertMethod.replace then InsertMethod.append else m) := by
  cases sch with
  | none =>
    rw [upload_data]
    rw [uploadChunksNoSchema]
    simp only [gt_iff_lt, Nat.lt_irrefl, and_false, if_false]
    rw [show (0 : Nat) + 1 = 0 + 1 from rfl, uploadChunksNoSchema_pos]
    simp [toSqlMethods, toSqlMethods_map]
  | some s =>
    rw [upload_data]
    rw [uploadChunksSchema]
    simp only [if_pos rfl, gt_iff_lt, Nat.lt_irrefl, and_false, if_false]
    rw [show (0 : Nat) + 1 = 0 + 1 from rfl, uploadChunksSchema_pos]
    simp [toSqlMethods, toSqlMethods_append, toSqlMethods_map]

/-- `runActions` over a concatenated trace runs the pieces in order. -/
theorem runActions_append (a b : List Action) (st : TableState) :
    runActions (a ++ b) st = (runActions a st).bind (fun st' => runActions b st') := by
  induction a generalizing st with
  | nil => rfl
  | cons x xs ih =>
    cases x with
    | execSQL stmt => simpa [runActions] using ih st
    | toSql tb sch m rows =>
      rw [List.cons_append, runActions, runActions]
      cases applyToSql m rows st with
      | none => rfl
      | some st' => simpa using ih st'

/-- Running a block of `append` writes onto an existing table
concatenates all the chunks' rows after the existing rows. -/
theorem runActions_append_chunks (t : String) (cs : List Chunk) :
    ∀ r : List (List String),
      runActions (cs.map (fun c => Action.toSql t none InsertMethod.append c.rows)) (some r) =
        some (some (r ++ allRows cs)) := by
  induction cs with
  | nil => intro r; simp [runActions, allRows]
  | cons c cs ih =>
    intro r
    rw [List.map_cons, runActions]
    simp only [applyToSql]
    rw [ih (r ++ c.rows)]
    simp [allRows, List.append_assoc]

/-- A single-file `upload_data` run with the `replace` policy and no
schema always succeeds and leaves the destination table holding exactly
that file's rows, whatever the prior table state. -/
theorem runActions_upload_replace (t db : String) (c : Chunk) (cs : List Chunk) (st : TableState) :
    runActions (upload_data (c :: cs) t InsertMethod.replace db none) st =
      some (some (allRows (c :: cs))) := by
  rw [upload_data, uploadChunksNoSchema]
  simp only [gt_iff_lt, Nat.lt_irrefl, and_false, if_false]
  rw [runActions]
  simp only [applyToSql]
  rw [show (0 : Nat) + 1 = 0 + 1 from rfl, uploadChunksNoSchema_pos]
  simp only [eq_self_iff_true, if_true]
  rw [runActions_append_chunks]
  simp [allRows]

/-- A `replace`-policy regex-mode run never errors: whatever the file
list and prior state, the overall run produces some final state. -/
theorem main_regex_uploads_replace_isSome (t db : String) (fs : List (List Chunk)) (st : TableState) :
    ∃ st', runActions (main_regex_uploads fs t InsertMethod.replace db none) st = some st' := by
  induction fs generalizing st with
  | nil => exact ⟨st, rfl⟩
  | cons f fsTail ih =>
    rw [main_regex_uploads] at *
    rw [List.map_cons, List.flatten_cons, runActions_append]
    cases f with
    | nil =>
      have h0 : runActions (upload_data [] t InsertMethod.replace db none) st = some st := rfl
      rw [h0]
      exact ih st
    | cons c cs =>
      rw [runActions_upload_replace]
      exact ih (some (allRows (c :: cs)))

/-- `renderRows` distributes over row-list concatenation. -/
theorem renderRows_append (a b : List (List String)) :
    renderRows (a ++ b) = renderRows a ++ renderRows b := by
  induction a with
  | nil => rw [List.nil_append, renderRows, String.empty_append]
  | cons r rs ih =>
    rw [List.cons_append, renderRows, renderRows, ih, String.append_assoc]

/-- Past the first chunk, the `create_csv` loop appends every remaining
chunk's rows, with no header, to the accumulated content. -/
theorem createCsvLoop_past_first (header : List String) (fh : Bool) (cs : List (List (List String))) :
    ∀ (i : Nat) (content : String),
      createCsvLoop header fh (i + 2) cs content = content ++ renderRows cs.flatten := by
  induction cs with
  | nil =>
    intro i content
    rw [createCsvLoop, List.flatten_nil, renderRows, String.append_empty]
  | cons c rest ih =>
    intro i content
    rw [createCsvLoop]
    simp only [Nat.succ_ne_zero, show i + 2 ≠ 1 by omega, if_false]
    rw [show i + 2 + 1 = (i + 1) + 2 from rfl, ih (i + 1) (content ++ renderRows c)]
    rw [List.flatten_cons, renderRows_append, String.append_assoc]

/-! ## Claim theorems -/

/-- C1 (counterexample): with the caller's policy `fail`, the batch at
index 1 of a two-chunk single-file import is still written with the
`fail` policy, not `append`, refuting the claim that every batch of
index greater than 0 is written with `append` regardless of the
requested policy. -/
theorem upload_fail_policy_persists_counterexample :
    (toSqlMethods (upload_data [⟨[("a", "int64")], [["1"]]⟩, ⟨[("a", "int64")], [["2"]]⟩]
        "t" InsertMethod.fail "db" none))[1]? = some InsertMethod.fail ∧
      InsertMethod.fail ≠ InsertMethod.append :=
  ⟨rfl, by decide⟩

/-- C1 (amended): for every single-file import (with or without a target
schema) and every batch index greater than 0, the batch is written with
`append` when the caller requested `replace` or `append`, but with `fail`
when the caller requested `fail`; only batch index 0 always receives the
caller's policy unchanged. -/
theorem upload_batch_policy_after_first (t db : String) (m : InsertMethod) (sch : Option String)
    (chunks : List Chunk) (i : Nat) (h0 : 0 < i) (h : i < chunks.length) :
    (toSqlMethods (upload_data chunks t m db sch))[i]? =
      some (if m = InsertMethod.replace then InsertMethod.append else m) := by
  cases chunks with
  | nil => simp at h
  | cons c cs =>
    rw [upload_data_methods]
    cases i with
    | zero => omega
    | succ j =>
      rw [List.getElem?_cons_succ, List.getElem?_replicate]
      have hj : j < cs.length := by simpa using h
      rw [if_pos hj]

/-- Witness for the amended C1 theorem at a concrete two-chunk import
with the `replace` policy: batch index 1 is written with `append`. -/
theorem upload_batch_policy_after_first_witness :
    (toSqlMethods (upload_data [⟨[("a", "int64")], [["1"]]⟩, ⟨[("a", "int64")], [["2"]]⟩]
        "t" InsertMethod.replace "db" none))[1]? = some InsertMethod.append :=
  upload_batch_policy_after_first "t" "db" InsertMethod.replace none
    [⟨[("a", "int64")], [["1"]]⟩, ⟨[("a", "int64")], [["2"]]⟩] 1 (by decide) (by decide)

/-- C2: the full action trace of a schema-targeted import. The copy
`INSERT INTO <schema>.<table> (SELECT * FROM <table>)` is executed, but
no `DROP TABLE public.<table>` action ever is: the source builds the drop
statement and never executes it, so the staging table remains in the
default schema, contradicting the claim. -/
theorem upload_schema_staging_never_dropped :
    upload_data [⟨[("a", "int64")], [["1"], ["2"]]⟩] "t" InsertMethod.replace "db" (some "analytics") =
      [Action.execSQL "CREATE SCHEMA IF NOT EXISTS analytics",
       Action.execSQL "CREATE TABLE IF NOT EXISTS db.analytics.t (\n \"a\" INT\n);",
       Action.toSql "t" none InsertMethod.replace [["1"], ["2"]],
       Action.execSQL "INSERT INTO analytics.t (SELECT * FROM t)"] := rfl

/-- C3 (counterexample): on batch 0 of a schema-targeted import the
create-table statement issued names the requested schema
(`db.analytics.t`), not the default schema, refuting the claim that the
statement is `CREATE TABLE IF NOT EXISTS <default>.<table>`. -/
theorem create_table_uses_requested_schema_counterexample :
    (upload_data [⟨[("a", "int64")], [["1"]]⟩] "t" InsertMethod.append "db" (some "analytics"))[1]? =
      some (Action.execSQL (create_table_query "t" ⟨[("a", "int64")], [["1"]]⟩ "db" "analytics")) ∧
    create_table_query "t" ⟨[("a", "int64")], [["1"]]⟩ "db" "analytics" =
      "CREATE TABLE IF NOT EXISTS db.analytics.t (\n \"a\" INT\n);" ∧
    create_table_query "t" ⟨[("a", "int64")], [["1"]]⟩ "db" "analytics" ≠
      "CREATE TABLE IF NOT EXISTS db.public.t (\n \"a\" INT\n);" :=
  ⟨rfl, rfl, by decide⟩

/-- C3 (amended): on a schema-targeted import the pipeline first creates
the schema, then on batch index 0 issues
`CREATE TABLE IF NOT EXISTS <database>.<schema>.<table>` for the
requested schema, with columns typed by the type-mapping heuristic
applied to the first batch's column tags, and then writes that batch's
rows via `to_sql` with no schema argument, i.e. into the default-schema
table, with the caller's policy. -/
theorem upload_schema_first_batch_actions (t db s : String) (m : InsertMethod)
    (c : Chunk) (cs : List Chunk) :
    (upload_data (c :: cs) t m db (some s))[0]? =
        some (Action.execSQL ("CREATE SCHEMA IF NOT EXISTS " ++ s)) ∧
    (upload_data (c :: cs) t m db (some s))[1]? =
        some (Action.execSQL (create_table_query t c db s)) ∧
    (upload_data (c :: cs) t m db (some s))[2]? =
        some (Action.toSql t none m c.rows) := by
  have h : uploadChunksSchema t db s m 0 (c :: cs) =
      Action.execSQL (create_table_query t c db s) :: Action.toSql t none m c.rows ::
        uploadChunksSchema t db s m 1 cs := by
    rw [uploadChunksSchema]
    simp
  refine ⟨?_, ?_, ?_⟩ <;> rw [upload_data, h] <;> simp

/-- C4: the connection-argument validation shared by both CLIs passes
combinations that supply none of the three accepted forms: only
`--username`, and also `--host` with `--database` but no `--username`,
contradicting the claim (and the parser's own error messages). -/
theorem validation_passes_with_username_only :
    validate_connection_args ⟨false, false, false, true, false⟩ = true ∧
    validate_connection_args ⟨false, true, true, false, false⟩ = true :=
  ⟨rfl, rfl⟩

/-- C5: with `--file-header False` the export still writes the header
row: `convert_to_boolean` yields `false`, but `main` never forwards it to
`create_csv`, whose `file_header` parameter keeps its default `True`. -/
theorem export_header_written_despite_false_flag :
    convert_to_boolean "False" = false ∧
    store_main_export "False" ["a"] [[["1"]]] "" = "a\n1\n" :=
  ⟨rfl, rfl⟩

/-- C6 (counterexample): the first batch of an export is written with
append mode, so content that was in the destination file before the
export remains at the top, refuting the claim that the first batch
creates or overwrites the file. -/
theorem export_first_batch_appends_counterexample :
    create_csv ["a"] [[["1"]]] "OLD\n" true = "OLD\na\n1\n" ∧
      ("OLD\na\n1\n" : String) ≠ "a\n1\n" :=
  ⟨rfl, by decide⟩

/-- C6 (amended): every batch of an export, the first included, is
written in append mode, so on completion the destination file contains
whatever it held before the export, followed by the header (if the
header parameter is true) and then all result rows in cursor order. -/
theorem export_appends_to_prior_content (header : List String) (fh : Bool) (prior : String)
    (c : List (List String)) (cs : List (List (List String))) :
    create_csv header (c :: cs) prior fh =
      prior ++ (if fh then renderRow header else "") ++ renderRows (c :: cs).flatten := by
  rw [create_csv, createCsvLoop]
  simp only [eq_self_iff_true, if_true]
  rw [show (1 : Nat) + 1 = 0 + 2 from rfl, createCsvLoop_past_first]
  rw [List.flatten_cons, renderRows_append]
  simp only [String.append_assoc]

/-- C7: the type-mapping heuristic is a pure function on dtype-tag
strings mapping `object` and `category` to `VARCHAR(255)`, `int64` to
`INT`, `float64` to `FLOAT`, `bool` to `BOOLEAN`, `datetime64` to
`DATETIME`, `timedelta[ns]` to `INTERVAL`, and every other string to the
`VARCHAR(255)` fallback. -/
theorem map_datatypes_spec :
    (map_datatypes "object" = "VARCHAR(255)" ∧ map_datatypes "category" = "VARCHAR(255)" ∧
      map_datatypes "int64" = "INT" ∧ map_datatypes "float64" = "FLOAT" ∧
      map_datatypes "bool" = "BOOLEAN" ∧ map_datatypes "datetime64" = "DATETIME" ∧
      map_datatypes "timedelta[ns]" = "INTERVAL") ∧
    ∀ s : String, s ≠ "int64" → s ≠ "float64" → s ≠ "bool" → s ≠ "datetime64" →
      s ≠ "timedelta[ns]" → map_datatypes s = "VARCHAR(255)" := by
  refine ⟨⟨rfl, rfl, rfl, rfl, rfl, rfl, rfl⟩, ?_⟩
  intro s h1 h2 h3 h4 h5
  rw [map_datatypes]
  split_ifs <;> simp_all

/-- Witness for the C7 fallback clause at the concrete tag
`unknown_tag`. -/
theorem map_datatypes_spec_witness :
    map_datatypes "unknown_tag" = "VARCHAR(255)" :=
  map_datatypes_spec.2 "unknown_tag" (by decide) (by decide) (by decide) (by decide) (by decide)

/-- C8: in regex-match mode each matched file is an independent
`upload_data` call with the caller's original policy and batch index
restarting at 0, so under `replace` the destination table is truncated
once per file: whatever the prior table state and the earlier files'
contents, the final table holds exactly the last file's rows. -/
theorem regex_mode_replace_truncates_per_file (t db : String) (fs : List (List Chunk))
    (lf : List Chunk) (st : TableState) (hlf : lf ≠ []) :
    runActions (main_regex_uploads (fs ++ [lf]) t InsertMethod.replace db none) st =
      some (some (allRows lf)) := by
  obtain ⟨c, cs, rfl⟩ := List.exists_cons_of_ne_nil hlf
  rw [main_regex_uploads, List.map_append, List.flatten_append, runActions_append]
  obtain ⟨st', hst'⟩ := main_regex_uploads_replace_isSome t db fs st
  rw [main_regex_uploads] at hst'
  rw [hst', Option.some_bind]
  rw [List.map_cons, List.map_nil, List.flatten_cons, List.flatten_nil, List.append_nil]
  exact runActions_upload_replace t db c cs st'

/-- Witness for C8: importing files {A: 1 row, B: 2 rows} with `replace`
into an initially absent table leaves exactly B's two rows. -/
theorem regex_mode_replace_truncates_per_file_witness :
    runActions (main_regex_uploads
        [[⟨[("a", "int64")], [["x"]]⟩], [⟨[("a", "int64")], [["y"], ["z"]]⟩]]
        "t" InsertMethod.replace "db" none) none = some (some [["y"], ["z"]]) :=
  regex_mode_replace_truncates_per_file "t" "db" [[⟨[("a", "int64")], [["x"]]⟩]]
    [⟨[("a", "int64")], [["y"], ["z"]]⟩] none (List.cons_ne_nil _ _)

/-- C9: the path combiner returns the (normalized) file name when the
folder is empty, joins a non-empty folder and the file with exactly one
separator before normalizing, and on the concrete cases of the claim:
`combine("", "f.csv") = "f.csv"`, `combine("dir", "f.csv") = "dir/f.csv"`,
`combine("dir/", "f.csv") = "dir/f.csv"`. -/
theorem combine_folder_and_file_name_spec :
    (∀ file : String, combine_folder_and_file_name "" file = normpath file) ∧
    (∀ folder file : String, folder ≠ "" →
      combine_folder_and_file_name folder file = normpath (folder ++ "/" ++ file)) ∧
    combine_folder_and_file_name "" "f.csv" = "f.csv" ∧
    combine_folder_and_file_name "dir" "f.csv" = "dir/f.csv" ∧
    combine_folder_and_file_name "dir/" "f.csv" = "dir/f.csv" := by
  refine ⟨?_, ?_, by decide, by decide, by decide⟩
  · intro file
    rw [combine_folder_and_file_name, if_pos rfl, String.append_empty, String.empty_append]
  · intro folder file h
    rw [combine_folder_and_file_name, if_neg h]

/-- Witness for the non-empty-folder clause of C9 at `dir` and `f.csv`. -/
theorem combine_folder_and_file_name_spec_witness :
    combine_folder_and_file_name "dir" "f.csv" = normpath ("dir" ++ "/" ++ "f.csv") :=
  combine_folder_and_file_name_spec.2.1 "dir" "f.csv" (by decide)

/-- C10: the import entry point builds its connection descriptor without
passing the parsed `--port` value, so the descriptor's port is always the
default 5439, whatever port the caller supplied. -/
theorem upload_main_port_always_default (host password user database port_arg : String) :
    (upload_main_connection_url host password user database port_arg).port = 5439 := rfl

end RedshiftBlueprints
